import Mathlib

/-!
Verification of the seat-reservation backend.

Shallow embedding of the reservation admission-control logic of the
repository.  The canonical full variant (the file with the weak-password
policy, bcrypt hashing and the plainPassword field) is embedded handler by
handler; two further variants kept in the repository's app.js are embedded
where their behaviour differs: the header-authenticated variant
(authenticateAdmin) and the third variant whose settings mutation and
bulk-delete endpoints are gated differently.

Modelling conventions:
- MongoDB collections are lists of documents in natural order; findOne is
  List.find?, find({}) is the list itself, insertion appends, deleteMany
  empties, findByIdAndUpdate / findByIdAndDelete act on the document whose
  id matches.  The two unique indexes of the reservation collection,
  (roomNo, name) and (dormitory, floor, seat), make a write raise a
  duplicate-key error (code 11000) exactly when the written document would
  share one of those keys with a different stored document.
- The check-then-act race of CREATE-OR-MOVE is modelled by giving the
  handler two store states: dbRead, the state the read probes saw, and
  dbWrite, the state the store holds when the write executes.  A
  sequential (uninterleaved) request has dbWrite = dbRead.
- Instants (Date values) are integers; JavaScript Date comparison is
  integer comparison.  Absent / null values are Option.none; an empty
  string models a missing or empty request field (both are falsy in the
  source's truthiness checks).
- bcrypt is the external one-way hashing collaborator; it is modelled by a
  tagging function whose compare succeeds exactly on the preimage, which
  is all the handlers rely on.
- toLowerCase is modelled per character by Char.toLower (they agree on the
  ASCII range all the weakness patterns live in).
-/

/-- Reservation document (reservationSchema of the full variant): identity
key (roomNo, name), placement key (dormitory, floor, seat), the stored
(normally hashed) password, and the cleartext plainPassword kept for the
admin view endpoint.  The id models MongoDB's _id. -/
structure Reservation where
  id : Nat
  roomNo : String
  name : String
  dormitory : String
  floor : String
  seat : Int
  password : String
  plainPassword : String
  deriving DecidableEq, Repr

/-- AdminSetting singleton (key 'reservationTimes'): nullable start and end
instants of the booking window. -/
structure AdminSetting where
  reservationStartTime : Option Int
  reservationEndTime : Option Int
  deriving DecidableEq, Repr

/-- Announcement singleton: message and active flag. -/
structure Announcement where
  message : String
  active : Bool
  deriving DecidableEq, Repr

/-- Server environment configuration: ADMIN_PASSWORD (none when the
environment variable is unset) and the ADMIN_USERNAMES allow-list. -/
structure Config where
  adminPassword : Option String
  adminUsernames : List String
  deriving DecidableEq, Repr

def emptyS : String := ""

def bcryptTagS : String := "$2b$10$"

/-- Modelled from the spec: the external one-way password-hashing
collaborator (bcrypt.hash).  Opaque to the handlers; modelled as tagging so
that compare succeeds exactly on the preimage. -/
def bcryptHash (p : String) : String := String.append bcryptTagS p

/-- Modelled from the spec: bcrypt.compare(candidate, stored). -/
def bcryptCompare (candidate stored : String) : Bool :=
  stored == bcryptHash candidate

/-- The pre-save hook of reservationSchema: hash the password when it was
modified and is shorter than 50 characters (an already-hashed value is
longer and is left alone). -/
def storedPasswordOf (p : String) : String :=
  if p.length < 50 then bcryptHash p else p

/- ---------------------------------------------------------------------
isWeakPassword (full variant, lines 135-162)
--------------------------------------------------------------------- -/

def alphaRowS : String := "abcdefghijklmnopqrstuvwxyz"
def abcdHeadS : String := "abcd"
def abcdTailS : String := "efghijklmnopqrstuvwxyz"
def qwerHeadS : String := "qwer"
def qwerTailS : String := "tyuiop"
def asdfHeadS : String := "asdf"
def asdfTailS : String := "ghjkl"
def zxcvHeadS : String := "zxcv"
def zxcvTailS : String := "bnm"
def qwertyRowS : String := "qwertyuiop"
def asdfRowS : String := "asdfghjkl"
def zxcvRowS : String := "zxcvbnm"

/-- Line terminators, which the regex dot of the repeated-character pattern
does not match. -/
def lineTerm (c : Char) : Bool :=
  c == '\n' || c == '\r' || c == '\u2028' || c == '\u2029'

/-- The anchored pattern (.)\1 repeated 3 or more times: the whole string is
one non-terminator character repeated at least four times. -/
def allRepeatPat : List Char → Bool
  | [] => false
  | c :: rest => !(lineTerm c) && decide (3 ≤ rest.length) && rest.all (fun x => x == c)

/-- Matcher for a regex tail of single optional characters o1?o2?...ok?: the
input must be a subsequence of the option list, consumed greedily. -/
def optSeqMatch : List Char → List Char → Bool
  | [], _ => true
  | _ :: _, [] => false
  | c :: cs, o :: os => bif c == o then optSeqMatch cs os else optSeqMatch (c :: cs) os

/-- Matcher for the anchored keyboard-row patterns: a mandatory head (abcd,
qwer, asdf, zxcv) followed by optional row continuation characters. -/
def rowPat (head tail p : List Char) : Bool :=
  decide (p.take head.length = head) && optSeqMatch (p.drop head.length) tail

def digitChar (c : Char) : Bool := decide ('0' ≤ c ∧ c ≤ '9')

def lowerChar (c : Char) : Bool := decide ('a' ≤ c ∧ c ≤ 'z')

/-- The four-value ascending-or-descending consecutive-run test of the
sliding-window check (digit values and char codes are both code points up
to a constant shift, so one test serves both classes). -/
def ascOrDesc (x0 x1 x2 x3 : Nat) : Bool :=
  (x1 == x0 + 1 && x2 == x1 + 1 && x3 == x2 + 1) ||
  (x1 + 1 == x0 && x2 + 1 == x1 && x3 + 1 == x2)

/-- One window of the sliding check: four consecutive characters that are
all digits or all lowercase letters and form an ascending or descending
run. -/
def windowWeak (a b c d : Char) : Bool :=
  bif digitChar a && digitChar b && digitChar c && digitChar d then
    ascOrDesc a.toNat b.toNat c.toNat d.toNat
  else bif lowerChar a && lowerChar b && lowerChar c && lowerChar d then
    ascOrDesc a.toNat b.toNat c.toNat d.toNat
  else false

/-- The sliding window over the whole (case-folded) password: some window of
four consecutive characters is windowWeak. -/
def hasSeqRun : List Char → Bool
  | a :: b :: c :: d :: rest => windowWeak a b c d || hasSeqRun (b :: c :: d :: rest)
  | _ => false

/-- isWeakPassword of the full variant: lowercase the candidate, test the
five anchored simple patterns, then the sliding run check. -/
def isWeakPassword (password : String) : Bool :=
  let p := password.data.map Char.toLower
  allRepeatPat p ||
  rowPat abcdHeadS.data abcdTailS.data p ||
  rowPat qwerHeadS.data qwerTailS.data p ||
  rowPat asdfHeadS.data asdfTailS.data p ||
  rowPat zxcvHeadS.data zxcvTailS.data p ||
  hasSeqRun p

/- ---------------------------------------------------------------------
POST /api/reservations (full variant, lines 200-246): CREATE-OR-MOVE
--------------------------------------------------------------------- -/

inductive PostOutcome where
  | badRequest
  | weakPassword
  | windowNotConfigured
  | windowClosed
  | placementTaken
  | wrongPassword
  | duplicateKey
  | serverError
  | success
  deriving DecidableEq, Repr

/-- HTTP status of each CREATE-OR-MOVE outcome, as sent by the handler. -/
def PostOutcome.status : PostOutcome → Nat
  | .badRequest => 400
  | .weakPassword => 400
  | .windowNotConfigured => 403
  | .windowClosed => 403
  | .placementTaken => 409
  | .wrongPassword => 401
  | .duplicateKey => 409
  | .serverError => 500
  | .success => 200

/-- Body of a CREATE-OR-MOVE request.  honeypot is the truthiness of the
honeypot_field; seat is none when absent (seat == null). -/
structure PostRequest where
  honeypot : Bool
  roomNo : String
  name : String
  dormitory : String
  floor : String
  seat : Option Int
  password : String
  deriving DecidableEq, Repr

/-- Predicate of the findOne({dormitory, floor, seat}) probe. -/
def placementMatch (d f : String) (v : Int) (r : Reservation) : Bool :=
  decide (r.dormitory = d) && decide (r.floor = f) && decide (r.seat = v)

/-- Predicate of the findOne({roomNo, name}) probe. -/
def identityMatch (rn nm : String) (r : Reservation) : Bool :=
  decide (r.roomNo = rn) && decide (r.name = nm)

/-- The central tie-break condition of the handler:
conflictSeat && (!existingUser || existingUser._id !== conflictSeat._id). -/
def conflictTaken : Option Reservation → Option Reservation → Bool
  | none, _ => false
  | some _, none => true
  | some c, some e => e.id != c.id

/-- Body of the handler's try block, reached once every admission gate has
passed: the two read probes against dbRead, the central tie-break, then the
move (findByIdAndUpdate) or create (save) write against dbWrite, with its
duplicate-key interpretation, the re-read of the full list and the
broadcast. -/
def postTryBody (req : PostRequest) (seatV : Int)
    (dbRead dbWrite : List Reservation) (freshId : Nat) :
    PostOutcome × List Reservation × List (List Reservation) :=
  let conflictSeat := dbRead.find? (placementMatch req.dormitory req.floor seatV)
  let existingUser := dbRead.find? (identityMatch req.roomNo req.name)
  if conflictTaken conflictSeat existingUser = true then (.placementTaken, dbWrite, []) else
  match existingUser with
  | some e =>
    if bcryptCompare req.password e.password = true then
      match dbWrite.find? (fun r => r.id == e.id) with
      | none => (.serverError, dbWrite, [])
      | some _ =>
        if dbWrite.any (fun r => r.id != e.id &&
             placementMatch req.dormitory req.floor seatV r) = true then
          (.duplicateKey, dbWrite, [])
        else
          let newDb := dbWrite.map (fun r =>
            if r.id = e.id then
              { r with dormitory := req.dormitory, floor := req.floor, seat := seatV }
            else r)
          (.success, newDb, [newDb])
    else (.wrongPassword, dbWrite, [])
  | none =>
    let newRec : Reservation :=
      { id := freshId, roomNo := req.roomNo, name := req.name,
        dormitory := req.dormitory, floor := req.floor, seat := seatV,
        password := storedPasswordOf req.password, plainPassword := req.password }
    if dbWrite.any (fun r => identityMatch req.roomNo req.name r ||
         placementMatch req.dormitory req.floor seatV r) = true then
      (.duplicateKey, dbWrite, [])
    else
      (.success, dbWrite ++ [newRec], [dbWrite ++ [newRec]])

/-- The CREATE-OR-MOVE handler.  Returns the outcome, the store after the
request, and the list of reservationsUpdated broadcast payloads it emitted.
dbRead is the store state seen by the two read probes, dbWrite the state
the write runs against (equal in a sequential execution); freshId is the
_id MongoDB assigns on insert. -/
def postReservation (req : PostRequest) (settings : Option AdminSetting) (now : Int)
    (dbRead dbWrite : List Reservation) (freshId : Nat) :
    PostOutcome × List Reservation × List (List Reservation) :=
  if req.honeypot = true then (.badRequest, dbWrite, []) else
  match req.seat with
  | none => (.badRequest, dbWrite, [])
  | some seatV =>
    if req.roomNo = emptyS ∨ req.name = emptyS ∨ req.dormitory = emptyS ∨
       req.floor = emptyS ∨ req.password = emptyS then (.badRequest, dbWrite, []) else
    if isWeakPassword req.password = true then (.weakPassword, dbWrite, []) else
    match settings with
    | none => (.windowNotConfigured, dbWrite, [])
    | some st =>
      match st.reservationStartTime, st.reservationEndTime with
      | some startT, some endT =>
        if now < startT ∨ endT < now then (.windowClosed, dbWrite, []) else
        postTryBody req seatV dbRead dbWrite freshId
      | _, _ => (.windowNotConfigured, dbWrite, [])

/-- GET /api/reservations: Reservation.find({}). -/
def getReservations (db : List Reservation) : List Reservation := db

/- ---------------------------------------------------------------------
DELETE /api/reservations/:id (full variant, lines 302-330): owner CANCEL
--------------------------------------------------------------------- -/

inductive CancelOutcome where
  | missingPassword
  | notFound
  | wrongPassword
  | success
  deriving DecidableEq, Repr

def CancelOutcome.status : CancelOutcome → Nat
  | .missingPassword => 400
  | .notFound => 404
  | .wrongPassword => 401
  | .success => 200

/-- Owner cancel: look up the target by id, verify the submitted password
against the stored hash, then delete and broadcast the re-read list. -/
def deleteReservation (rid : Nat) (password : String) (db : List Reservation) :
    CancelOutcome × List Reservation × List (List Reservation) :=
  if password = emptyS then (.missingPassword, db, []) else
  match db.find? (fun r => r.id == rid) with
  | none => (.notFound, db, [])
  | some r =>
    if bcryptCompare password r.password = true then
      let newDb := db.filter (fun x => x.id != rid)
      (.success, newDb, [newDb])
    else (.wrongPassword, db, [])

/- ---------------------------------------------------------------------
DELETE /api/reservations/all (full variant, lines 333-352, and the third
app.js variant, lines 982-988): BULK-CANCEL
--------------------------------------------------------------------- -/

inductive BulkOutcome where
  | forbidden
  | success
  deriving DecidableEq, Repr

def BulkOutcome.status : BulkOutcome → Nat
  | .forbidden => 403
  | .success => 200

/-- Bulk cancel of the full variant: reject unless the supplied
adminUsername is a member of the allow-list (no password check), then
deleteMany({}) and broadcast an empty list. -/
def deleteAllReservations (cfg : Config) (adminUsername : String) (db : List Reservation) :
    BulkOutcome × List Reservation × List (List Reservation) :=
  if adminUsername = emptyS ∨ ¬ (adminUsername ∈ cfg.adminUsernames) then
    (.forbidden, db, [])
  else
    (.success, [], [([] : List Reservation)])

/-- Bulk cancel of the third app.js variant: no credential check at all;
deleteMany({}) and broadcast an empty list unconditionally. -/
def deleteAllReservationsV3 (_db : List Reservation) :
    BulkOutcome × List Reservation × List (List Reservation) :=
  (.success, [], [([] : List Reservation)])

/- ---------------------------------------------------------------------
Admin credential checks
--------------------------------------------------------------------- -/

/-- The truthiness test !ADMIN_PASSWORD: unset, or set to the empty
string. -/
def adminPasswordFalsy (cfg : Config) : Bool :=
  cfg.adminPassword.getD emptyS == emptyS

/-- Plain equality of a submitted secret with the configured
ADMIN_PASSWORD; never true when it is unset (a string never equals
undefined). -/
def adminSecretMatches (cfg : Config) (candidate : String) : Bool :=
  match cfg.adminPassword with
  | none => false
  | some ap => candidate == ap

/-- Modelled from the spec: verifyAdmin(name, secret) — name in the
allow-list AND secret equals the shared admin secret by plain equality. -/
def verifyAdmin (cfg : Config) (name secret : String) : Bool :=
  decide (name ∈ cfg.adminUsernames) && adminSecretMatches cfg secret

inductive AdminLoginOutcome where
  | missingFields
  | serverMisconfigured
  | nameNotAllowed
  | wrongPassword
  | success
  deriving DecidableEq, Repr

def AdminLoginOutcome.status : AdminLoginOutcome → Nat
  | .missingFields => 400
  | .serverMisconfigured => 500
  | .nameNotAllowed => 401
  | .wrongPassword => 401
  | .success => 200

/-- POST /api/admin-login of the full variant (lines 165-186). -/
def adminLogin (cfg : Config) (username password : String) : AdminLoginOutcome :=
  if username = emptyS ∨ password = emptyS then .missingFields else
  if adminPasswordFalsy cfg = true then .serverMisconfigured else
  if ¬ (username ∈ cfg.adminUsernames) then .nameNotAllowed else
  if adminSecretMatches cfg password = true then .success else .wrongPassword

inductive AdminOpOutcome where
  | missingFields
  | nameNotAllowed
  | wrongPassword
  | forbidden
  | success
  deriving DecidableEq, Repr

def AdminOpOutcome.status : AdminOpOutcome → Nat
  | .missingFields => 400
  | .nameNotAllowed => 403
  | .wrongPassword => 401
  | .forbidden => 403
  | .success => 200

/-- PUT /api/admin-settings of the full variant (lines 370-401): name and
password both required, name checked against the allow-list, password by
plain equality (with no separate unset-secret branch), then upsert of the
singleton. -/
def putAdminSettings (cfg : Config) (adminUsername adminPassword : String)
    (newStart newEnd : Option Int) (settings : Option AdminSetting) :
    AdminOpOutcome × Option AdminSetting :=
  if adminUsername = emptyS ∨ adminPassword = emptyS then (.missingFields, settings) else
  if ¬ (adminUsername ∈ cfg.adminUsernames) then (.nameNotAllowed, settings) else
  if adminSecretMatches cfg adminPassword = false then (.wrongPassword, settings) else
  (.success, some { reservationStartTime := newStart, reservationEndTime := newEnd })

/-- PUT /api/announcement of the full variant (lines 419-450): same gate as
the settings mutation, then upsert of the announcement singleton. -/
def putAnnouncement (cfg : Config) (adminUsername adminPassword : String)
    (message : String) (active : Bool) (ann : Option Announcement) :
    AdminOpOutcome × Option Announcement :=
  if adminUsername = emptyS ∨ adminPassword = emptyS then (.missingFields, ann) else
  if ¬ (adminUsername ∈ cfg.adminUsernames) then (.nameNotAllowed, ann) else
  if adminSecretMatches cfg adminPassword = false then (.wrongPassword, ann) else
  (.success, some { message := message, active := active })

inductive AdminAuthOutcome where
  | missingHeader
  | serverMisconfigured
  | forbidden
  | authorized
  deriving DecidableEq, Repr

def AdminAuthOutcome.status : AdminAuthOutcome → Nat
  | .missingHeader => 401
  | .serverMisconfigured => 500
  | .forbidden => 403
  | .authorized => 200

def bearerTagS : String := "Bearer "
def spaceChar : Char := ' '

/-- authHeader.startsWith of the source, on the character level. -/
def headerStartsWith (h pre : List Char) : Bool :=
  decide (h.take pre.length = pre)

/-- JavaScript String.split(sep) for a one-character separator: cut at
every occurrence of the separator. -/
def splitOnChar (sep : Char) : List Char → List (List Char)
  | [] => [[]]
  | c :: cs =>
    if c = sep then [] :: splitOnChar sep cs
    else
      match splitOnChar sep cs with
      | [] => [[c]]
      | w :: ws => (c :: w) :: ws

/-- authHeader.split(' ')[1] of the source: the second space-separated
part of the header (undefined, modelled as empty, when there is none). -/
def bearerToken (h : List Char) : String :=
  String.mk ((splitOnChar spaceChar h).getD 1 [])

/-- authenticateAdmin middleware of the first app.js variant (lines
97-112): Bearer token from the Authorization header, distinct 500 when
ADMIN_PASSWORD is unset, plain equality otherwise; no username at all. -/
def authenticateAdmin (cfg : Config) (authHeader : Option String) : AdminAuthOutcome :=
  match authHeader with
  | none => .missingHeader
  | some h =>
    if headerStartsWith h.data bearerTagS.data = false then .missingHeader else
    if adminPasswordFalsy cfg = true then .serverMisconfigured else
    if adminSecretMatches cfg (bearerToken h.data) = true then .authorized
    else .forbidden

/-- PUT /api/admin-settings of the third app.js variant (lines 894-910):
only adminPassword !== ADMIN_PASSWORD is checked — no username, and two
absent values compare equal, so an unset secret plus an omitted body field
passes the gate. -/
def putAdminSettingsV3 (cfg : Config) (adminPassword : Option String)
    (newStart newEnd : Option Int) (settings : Option AdminSetting) :
    AdminOpOutcome × Option AdminSetting :=
  if adminPassword = cfg.adminPassword then
    (.success, some { reservationStartTime := newStart, reservationEndTime := newEnd })
  else (.forbidden, settings)

inductive ViewOutcome where
  | missingFields
  | wrongAdminPassword
  | nameNotAllowed
  | notFound
  | ok (plain : String)
  deriving DecidableEq, Repr

/-- POST /api/admin/reservations/:id/view-plain-password of the full
variant (lines 502-533): admin gate (password equality, then allow-list),
then return the stored cleartext plainPassword of the target. -/
def viewPlainPassword (cfg : Config) (adminUsername adminPassword : String)
    (rid : Nat) (db : List Reservation) : ViewOutcome :=
  if adminPassword = emptyS ∨ adminUsername = emptyS then .missingFields else
  if adminSecretMatches cfg adminPassword = false then .wrongAdminPassword else
  if ¬ (adminUsername ∈ cfg.adminUsernames) then .nameNotAllowed else
  match db.find? (fun r => r.id == rid) with
  | none => .notFound
  | some r => .ok r.plainPassword

/- ---------------------------------------------------------------------
Spec-side definitions and invariants
--------------------------------------------------------------------- -/

/-- Modelled from the spec: isBookingOpen(settings, now) — settings exist,
both bounds non-null, start <= now <= end. -/
def isBookingOpen (settings : Option AdminSetting) (now : Int) : Bool :=
  match settings with
  | none => false
  | some st =>
    match st.reservationStartTime, st.reservationEndTime with
    | some startT, some endT => decide (startT ≤ now) && decide (now ≤ endT)
    | _, _ => false

/-- Store invariant: at most one reservation per placement key. -/
def placementUnique (db : List Reservation) : Prop :=
  ∀ r ∈ db, ∀ s ∈ db, r.dormitory = s.dormitory → r.floor = s.floor → r.seat = s.seat → r = s

/-- Store invariant: at most one reservation per identity key. -/
def identityUnique (db : List Reservation) : Prop :=
  ∀ r ∈ db, ∀ s ∈ db, r.roomNo = s.roomNo → r.name = s.name → r = s

instance (db : List Reservation) : Decidable (placementUnique db) := by
  unfold placementUnique; infer_instance

instance (db : List Reservation) : Decidable (identityUnique db) := by
  unfold identityUnique; infer_instance

/-- Store states reachable by sequential (uninterleaved) runs of the
mutating reservation handlers, starting from the empty store. -/
inductive ReachableDb : List Reservation → Prop where
  | start : ReachableDb []
  | createOrMove (req : PostRequest) (settings : Option AdminSetting) (now : Int)
      (db : List Reservation) (freshId : Nat) :
      ReachableDb db → ReachableDb (postReservation req settings now db db freshId).2.1
  | cancel (rid : Nat) (password : String) (db : List Reservation) :
      ReachableDb db → ReachableDb (deleteReservation rid password db).2.1
  | bulkCancel (cfg : Config) (adminUsername : String) (db : List Reservation) :
      ReachableDb db → ReachableDb (deleteAllReservations cfg adminUsername db).2.1

/- ---------------------------------------------------------------------
Concrete fixtures used by witnesses and counterexamples
--------------------------------------------------------------------- -/

def kimS : String := "kim"
def leeS : String := "lee"
def r101S : String := "101"
def r202S : String := "202"
def d1S : String := "d1"
def f2S : String := "2"
def pwS : String := "Str0ng!Pw"
def pw2S : String := "Qx7!mel"
def adminPwS : String := "orbit-secret-77"
def weakDigitsS : String := "1234"
def weakRepS : String := "aaaa"
def abcS : String := "abc"
def xzLongS : String := "xzxzxzxzxzxzxzxzxzxzxzxzxzxzxzxzxzxzxzxzxzxzxzxzxz"
def numRunS : String := "x4321y"

def qChar : Char := 'q'
def xChar : Char := 'x'
def yChar : Char := 'y'
def oneChar : Char := '1'
def twoChar : Char := '2'
def threeChar : Char := '3'
def fourChar : Char := '4'

def resKim : Reservation :=
  { id := 1, roomNo := r101S, name := kimS, dormitory := d1S, floor := f2S, seat := 5,
    password := bcryptHash pwS, plainPassword := pwS }

def resLee : Reservation :=
  { id := 2, roomNo := r202S, name := leeS, dormitory := d1S, floor := f2S, seat := 6,
    password := bcryptHash pw2S, plainPassword := pw2S }

def settingsOpen : AdminSetting :=
  { reservationStartTime := some 0, reservationEndTime := some 100 }

def settingsNarrow : AdminSetting :=
  { reservationStartTime := some 10, reservationEndTime := some 20 }

def cfgEx : Config := { adminPassword := some adminPwS, adminUsernames := [kimS] }

def cfgUnset : Config := { adminPassword := none, adminUsernames := [kimS] }

/-- A CREATE request by Kim for seat 5. -/
def reqKim : PostRequest :=
  { honeypot := false, roomNo := r101S, name := kimS, dormitory := d1S,
    floor := f2S, seat := some 5, password := pwS }

/-- A MOVE request by Kim to seat 6. -/
def reqKimMove : PostRequest :=
  { honeypot := false, roomNo := r101S, name := kimS, dormitory := d1S,
    floor := f2S, seat := some 6, password := pwS }

/-- A request with a weak numeric password. -/
def reqWeakNum : PostRequest :=
  { honeypot := false, roomNo := r101S, name := kimS, dormitory := d1S,
    floor := f2S, seat := some 5, password := weakDigitsS }

/-- A request with a weak repeated-character password. -/
def reqWeakRep : PostRequest :=
  { honeypot := false, roomNo := r202S, name := leeS, dormitory := d1S,
    floor := f2S, seat := some 7, password := weakRepS }

/-- A CREATE request whose password is 50 characters long. -/
def reqLongPw : PostRequest :=
  { honeypot := false, roomNo := r202S, name := leeS, dormitory := d1S,
    floor := f2S, seat := some 8, password := xzLongS }

/-- The record stored by the 50-character-password create: cleartext in
both password fields, because the pre-save hook skips hashing. -/
def resLongStored : Reservation :=
  { id := 1, roomNo := r202S, name := leeS, dormitory := d1S, floor := f2S,
    seat := 8, password := xzLongS, plainPassword := xzLongS }

/-- Lee's record racing onto seat 5. -/
def resLee2 : Reservation :=
  { id := 3, roomNo := r202S, name := leeS, dormitory := d1S, floor := f2S, seat := 5,
    password := bcryptHash pw2S, plainPassword := pw2S }

/-- A MOVE attempt by Kim re-submitting the own seat with Lee's password. -/
def reqKimWrongPw : PostRequest :=
  { honeypot := false, roomNo := r101S, name := kimS, dormitory := d1S,
    floor := f2S, seat := some 5, password := pw2S }

def bearerHdrS : String := "Bearer orbit-secret-77"

/- ---------------------------------------------------------------------
Helper lemmas
--------------------------------------------------------------------- -/

theorem postReservation_gates_pass (req : PostRequest) (seatV : Int) (st : AdminSetting)
    (startT endT now : Int) (dbRead dbWrite : List Reservation) (freshId : Nat)
    (hhp : req.honeypot = false) (hseat : req.seat = some seatV)
    (hfields : ¬(req.roomNo = emptyS ∨ req.name = emptyS ∨ req.dormitory = emptyS ∨
      req.floor = emptyS ∨ req.password = emptyS))
    (hweak : isWeakPassword req.password = false)
    (hst : st.reservationStartTime = some startT)
    (hen : st.reservationEndTime = some endT)
    (htime : ¬(now < startT ∨ endT < now)) :
    postReservation req (some st) now dbRead dbWrite freshId =
      postTryBody req seatV dbRead dbWrite freshId := by
  unfold postReservation
  simp only [hhp, hseat, hst, hen, hweak, Bool.false_eq_true, if_false,
    if_neg hfields, if_neg htime]

theorem postTryBody_cases (req : PostRequest) (seatV : Int)
    (dbRead dbWrite : List Reservation) (freshId : Nat) :
    ∃ o db b, postTryBody req seatV dbRead dbWrite freshId = (o, db, b) ∧
      (o = PostOutcome.placementTaken ∨ o = PostOutcome.wrongPassword ∨
       o = PostOutcome.serverError ∨ o = PostOutcome.duplicateKey ∨
       o = PostOutcome.success) := by
  simp only [postTryBody]
  by_cases hct : conflictTaken (dbRead.find? (placementMatch req.dormitory req.floor seatV))
      (dbRead.find? (identityMatch req.roomNo req.name)) = true
  · simp only [if_pos hct]
    exact ⟨_, _, _, rfl, by simp⟩
  · simp only [if_neg hct]
    rcases heu : dbRead.find? (identityMatch req.roomNo req.name) with _ | e <;>
      simp only [heu]
    · by_cases hins : (dbWrite.any fun r => identityMatch req.roomNo req.name r ||
          placementMatch req.dormitory req.floor seatV r) = true
      · simp only [if_pos hins]
        exact ⟨_, _, _, rfl, by simp⟩
      · simp only [if_neg hins]
        exact ⟨_, _, _, rfl, by simp⟩
    · by_cases hcmp : bcryptCompare req.password e.password = true
      · simp only [if_pos hcmp]
        rcases hw : dbWrite.find? (fun r => r.id == e.id) with _ | w <;> simp only [hw]
        · exact ⟨_, _, _, rfl, by simp⟩
        · by_cases hdup : (dbWrite.any fun r => r.id != e.id &&
              placementMatch req.dormitory req.floor seatV r) = true
          · simp only [if_pos hdup]
            exact ⟨_, _, _, rfl, by simp⟩
          · simp only [if_neg hdup]
            exact ⟨_, _, _, rfl, by simp⟩
      · simp only [if_neg hcmp]
        exact ⟨_, _, _, rfl, by simp⟩

theorem isWeak_of_allRepeat (s : String)
    (h : allRepeatPat (s.data.map Char.toLower) = true) : isWeakPassword s = true := by
  unfold isWeakPassword
  simp [h]

theorem isWeak_of_run (s : String)
    (h : hasSeqRun (s.data.map Char.toLower) = true) : isWeakPassword s = true := by
  unfold isWeakPassword
  simp [h]

theorem allRepeatPat_replicate (c : Char) (n : Nat) (h4 : 4 ≤ n)
    (hterm : lineTerm c = false) : allRepeatPat (List.replicate n c) = true := by
  match n, h4 with
  | (k + 4), _ =>
    rw [List.replicate_succ]
    simp only [allRepeatPat, hterm, Bool.not_false, Bool.true_and, Bool.and_eq_true,
      decide_eq_true_eq, List.all_eq_true, List.length_replicate, List.mem_replicate]
    constructor
    · omega
    · intro x hx
      simp [hx.2]

theorem hasSeqRun_cons (x : Char) (l : List Char) (h : hasSeqRun l = true) :
    hasSeqRun (x :: l) = true := by
  match l with
  | [] => simp [hasSeqRun] at h
  | [a] => simp [hasSeqRun] at h
  | [a, b] => simp [hasSeqRun] at h
  | [a, b, c] => simp [hasSeqRun] at h
  | a :: b :: c :: d :: r =>
    simp only [hasSeqRun] at h ⊢
    simp [h]

theorem hasSeqRun_append (pre suf : List Char) (a b c d : Char)
    (h : windowWeak a b c d = true) :
    hasSeqRun (pre ++ a :: b :: c :: d :: suf) = true := by
  induction pre with
  | nil => simp [hasSeqRun, h]
  | cons x rest ih =>
    rw [List.cons_append]
    exact hasSeqRun_cons x _ ih

/-- C9 counterexample: "abc" is a prefix of the alphabet sequence (the first
three characters of the row), yet isWeakPassword returns false on it — the
anchored pattern requires the four-character head abcd, so prefixes shorter
than four characters are not rejected. -/
theorem weak_password_counterexample :
    abcS.data = alphaRowS.data.take 3 ∧ isWeakPassword abcS = false := by
  decide

/-- C9 (amended): isWeakPassword returns true on each listed class, with
the row-prefix classes restricted to prefixes of length at least four (and
the repeated-character class to characters the regex dot matches): a string
of four or more copies of one character; a length-4-or-more prefix of the
alphabet row, of qwertyuiop, of asdfghjkl, or of zxcvbnm; and any string
whose case-folded form contains a four-character contiguous ascending or
descending run of digits or lowercase letters anywhere in it. -/
theorem weak_password_classes :
    (∀ (c : Char) (n : Nat), 4 ≤ n → lineTerm (Char.toLower c) = false →
      isWeakPassword (String.mk (List.replicate n c)) = true) ∧
    (∀ n : Nat, 4 ≤ n → n ≤ 26 → isWeakPassword (String.mk (alphaRowS.data.take n)) = true) ∧
    (∀ n : Nat, 4 ≤ n → n ≤ 10 → isWeakPassword (String.mk (qwertyRowS.data.take n)) = true) ∧
    (∀ n : Nat, 4 ≤ n → n ≤ 9 → isWeakPassword (String.mk (asdfRowS.data.take n)) = true) ∧
    (∀ n : Nat, 4 ≤ n → n ≤ 7 → isWeakPassword (String.mk (zxcvRowS.data.take n)) = true) ∧
    (∀ (s : String) (pre suf : List Char) (a b c d : Char),
      s.data.map Char.toLower = pre ++ a :: b :: c :: d :: suf →
      windowWeak a b c d = true → isWeakPassword s = true) := by
  refine ⟨?_, ?_, ?_, ?_, ?_, ?_⟩
  · intro c n h4 hterm
    apply isWeak_of_allRepeat
    have hdata : (String.mk (List.replicate n c)).data = List.replicate n c := rfl
    rw [hdata, List.map_replicate]
    exact allRepeatPat_replicate (Char.toLower c) n h4 hterm
  · intro n h4 h26
    interval_cases n <;> decide
  · intro n h4 h10
    interval_cases n <;> decide
  · intro n h4 h9
    interval_cases n <;> decide
  · intro n h4 h7
    interval_cases n <;> decide
  · intro s pre suf a b c d hmap hw
    apply isWeak_of_run
    rw [hmap]
    exact hasSeqRun_append pre suf a b c d hw

/-- Witness for weak_password_classes: each class applied to a concrete
input. -/
theorem weak_password_classes_witness :
    isWeakPassword (String.mk (List.replicate 4 qChar)) = true ∧
    isWeakPassword (String.mk (alphaRowS.data.take 5)) = true ∧
    isWeakPassword (String.mk (qwertyRowS.data.take 4)) = true ∧
    isWeakPassword (String.mk (asdfRowS.data.take 4)) = true ∧
    isWeakPassword (String.mk (zxcvRowS.data.take 4)) = true ∧
    isWeakPassword numRunS = true :=
  ⟨weak_password_classes.1 qChar 4 (by decide) (by decide),
   weak_password_classes.2.1 5 (by decide) (by decide),
   weak_password_classes.2.2.1 4 (by decide) (by decide),
   weak_password_classes.2.2.2.1 4 (by decide) (by decide),
   weak_password_classes.2.2.2.2.1 4 (by decide) (by decide),
   weak_password_classes.2.2.2.2.2 numRunS [xChar] [yChar]
     fourChar threeChar twoChar oneChar (by decide) (by decide)⟩

theorem adminLogin_success_iff (cfg : Config) (u p : String) :
    adminLogin cfg u p = AdminLoginOutcome.success ↔
      u ≠ emptyS ∧ p ≠ emptyS ∧ verifyAdmin cfg u p = true := by
  unfold adminLogin verifyAdmin adminSecretMatches adminPasswordFalsy
  rcases cfg.adminPassword with _ | ap
  · split_ifs with h1 <;> simp_all
  · simp only [Option.getD_some]
    split_ifs with h1 h2 h3 h4 <;> simp_all [beq_iff_eq, emptyS]
    intro hu hp _
    rcases h1 with h | h <;> simp_all

theorem putAdminSettings_success_iff (cfg : Config) (u p : String)
    (ns ne : Option Int) (s : Option AdminSetting) :
    (putAdminSettings cfg u p ns ne s).1 = AdminOpOutcome.success ↔
      u ≠ emptyS ∧ p ≠ emptyS ∧ verifyAdmin cfg u p = true := by
  unfold putAdminSettings verifyAdmin adminSecretMatches
  rcases cfg.adminPassword with _ | ap
  · split_ifs with h1 h2 <;> simp_all
  · split_ifs with h1 h2 h3 <;> simp_all [beq_iff_eq]
    intro hu hp _
    rcases h1 with h | h <;> simp_all

theorem putAnnouncement_success_iff (cfg : Config) (u p : String)
    (m : String) (a : Bool) (ann : Option Announcement) :
    (putAnnouncement cfg u p m a ann).1 = AdminOpOutcome.success ↔
      u ≠ emptyS ∧ p ≠ emptyS ∧ verifyAdmin cfg u p = true := by
  unfold putAnnouncement verifyAdmin adminSecretMatches
  rcases cfg.adminPassword with _ | ap
  · split_ifs with h1 h2 <;> simp_all
  · split_ifs with h1 h2 h3 <;> simp_all [beq_iff_eq]
    intro hu hp _
    rcases h1 with h | h <;> simp_all

theorem adminLogin_unset (cfg : Config) (u p : String)
    (hap : cfg.adminPassword = none) (hu : u ≠ emptyS) (hp : p ≠ emptyS) :
    adminLogin cfg u p = AdminLoginOutcome.serverMisconfigured := by
  unfold adminLogin adminPasswordFalsy
  rw [hap]
  rw [if_neg (by simp [hu, hp])]
  simp [emptyS]

theorem putAdminSettings_unset (cfg : Config) (u p : String)
    (ns ne : Option Int) (s : Option AdminSetting)
    (hap : cfg.adminPassword = none) (hu : u ≠ emptyS) (hp : p ≠ emptyS)
    (hmem : u ∈ cfg.adminUsernames) :
    (putAdminSettings cfg u p ns ne s).1 = AdminOpOutcome.wrongPassword := by
  unfold putAdminSettings adminSecretMatches
  rw [hap]
  rw [if_neg (by simp [hu, hp]), if_neg (by simp [hmem])]
  simp

theorem authenticateAdmin_authorized_iff (cfg : Config) (h : Option String) :
    authenticateAdmin cfg h = AdminAuthOutcome.authorized ↔
      ∃ s, h = some s ∧ headerStartsWith s.data bearerTagS.data = true ∧
        adminPasswordFalsy cfg = false ∧
        adminSecretMatches cfg (bearerToken s.data) = true := by
  rcases h with _ | s
  · simp [authenticateAdmin]
  · simp only [authenticateAdmin]
    by_cases hb : headerStartsWith s.data bearerTagS.data = false
    · rw [if_pos hb]
      simp_all
    · rw [if_neg hb]
      by_cases hf : adminPasswordFalsy cfg = true
      · rw [if_pos hf]
        simp_all
      · rw [if_neg hf]
        split_ifs with hm <;> simp_all

theorem authenticateAdmin_unset (cfg : Config) (s : String)
    (hap : cfg.adminPassword = none) (hb : headerStartsWith s.data bearerTagS.data = true) :
    authenticateAdmin cfg (some s) = AdminAuthOutcome.serverMisconfigured := by
  unfold authenticateAdmin adminPasswordFalsy
  simp only [hap, Option.getD_none]
  rw [if_neg (by simp [hb])]
  simp [emptyS]

theorem putAdminSettingsV3_success_iff (cfg : Config) (rpw : Option String)
    (ns ne : Option Int) (s : Option AdminSetting) :
    (putAdminSettingsV3 cfg rpw ns ne s).1 = AdminOpOutcome.success ↔
      rpw = cfg.adminPassword := by
  unfold putAdminSettingsV3
  split_ifs with h1 <;> simp_all

theorem deleteAll_success_iff (cfg : Config) (u : String) (db : List Reservation) :
    (deleteAllReservations cfg u db).1 = BulkOutcome.success ↔
      u ≠ emptyS ∧ u ∈ cfg.adminUsernames := by
  unfold deleteAllReservations
  split_ifs with h1 <;> simp_all [not_or]
  intro hu
  rcases h1 with h | h
  · exact absurd h hu
  · exact h

/-- C4 counterexample: the third variant's admin-settings mutation grants
access with the admin secret unconfigured (an omitted body secret compares
equal to the unset environment value) and checks no admin name at all, so
the claimed iff-characterization and the fail-closed clause are both
violated at this input. -/
theorem admin_check_counterexample :
    cfgUnset.adminPassword = none ∧
    (putAdminSettingsV3 cfgUnset none (some 1) (some 2) none).1 =
      AdminOpOutcome.success := by
  decide

/-- C4 (amended): admin checks vary by handler.  The full variant's
admin-login, settings mutation and announcement mutation succeed exactly
when both fields are supplied and verifyAdmin holds (name in the allow-list
and secret equal to the configured ADMIN_PASSWORD by plain equality), and
never succeed when ADMIN_PASSWORD is unset; but only admin-login and the
first variant's authenticateAdmin middleware report the distinct
server-misconfigured (500) condition when it is unset — the settings
mutation then fails with a plain wrong-password response.  The first
variant's authenticateAdmin checks only the bearer secret (no name); the
third variant's settings mutation checks only strict equality of the
optional body secret with the optional environment secret (no name, and
both absent passes); the full variant's bulk cancel checks only the name
(no secret), succeeding exactly on a non-empty allow-listed name. -/
theorem admin_check_characterization :
    (∀ (cfg : Config) (u p : String),
      adminLogin cfg u p = AdminLoginOutcome.success ↔
        u ≠ emptyS ∧ p ≠ emptyS ∧ verifyAdmin cfg u p = true) ∧
    (∀ (cfg : Config) (u p : String) (ns ne : Option Int) (s : Option AdminSetting),
      (putAdminSettings cfg u p ns ne s).1 = AdminOpOutcome.success ↔
        u ≠ emptyS ∧ p ≠ emptyS ∧ verifyAdmin cfg u p = true) ∧
    (∀ (cfg : Config) (u p m : String) (a : Bool) (ann : Option Announcement),
      (putAnnouncement cfg u p m a ann).1 = AdminOpOutcome.success ↔
        u ≠ emptyS ∧ p ≠ emptyS ∧ verifyAdmin cfg u p = true) ∧
    (∀ (cfg : Config) (u p : String), cfg.adminPassword = none →
      u ≠ emptyS → p ≠ emptyS →
      adminLogin cfg u p = AdminLoginOutcome.serverMisconfigured) ∧
    (∀ (cfg : Config) (u p : String) (ns ne : Option Int) (s : Option AdminSetting),
      cfg.adminPassword = none → u ≠ emptyS → p ≠ emptyS → u ∈ cfg.adminUsernames →
      (putAdminSettings cfg u p ns ne s).1 = AdminOpOutcome.wrongPassword) ∧
    (∀ (cfg : Config) (h : Option String),
      authenticateAdmin cfg h = AdminAuthOutcome.authorized ↔
        ∃ s, h = some s ∧ headerStartsWith s.data bearerTagS.data = true ∧
          adminPasswordFalsy cfg = false ∧
          adminSecretMatches cfg (bearerToken s.data) = true) ∧
    (∀ (cfg : Config) (s : String), cfg.adminPassword = none →
      headerStartsWith s.data bearerTagS.data = true →
      authenticateAdmin cfg (some s) = AdminAuthOutcome.serverMisconfigured) ∧
    (∀ (cfg : Config) (rpw : Option String) (ns ne : Option Int) (s : Option AdminSetting),
      (putAdminSettingsV3 cfg rpw ns ne s).1 = AdminOpOutcome.success ↔
        rpw = cfg.adminPassword) ∧
    (∀ (cfg : Config) (u : String) (db : List Reservation),
      (deleteAllReservations cfg u db).1 = BulkOutcome.success ↔
        u ≠ emptyS ∧ u ∈ cfg.adminUsernames) :=
  ⟨adminLogin_success_iff, putAdminSettings_success_iff, putAnnouncement_success_iff,
   adminLogin_unset, putAdminSettings_unset, authenticateAdmin_authorized_iff,
   authenticateAdmin_unset, putAdminSettingsV3_success_iff, deleteAll_success_iff⟩

/-- Witness for admin_check_characterization at concrete configurations. -/
theorem admin_check_characterization_witness :
    adminLogin cfgEx kimS adminPwS = AdminLoginOutcome.success ∧
    (putAdminSettings cfgUnset kimS adminPwS (some 1) (some 2) none).1 =
      AdminOpOutcome.wrongPassword ∧
    adminLogin cfgUnset kimS adminPwS = AdminLoginOutcome.serverMisconfigured ∧
    authenticateAdmin cfgEx (some bearerHdrS) = AdminAuthOutcome.authorized ∧
    authenticateAdmin cfgUnset (some bearerHdrS) = AdminAuthOutcome.serverMisconfigured ∧
    (deleteAllReservations cfgEx kimS [resKim]).1 = BulkOutcome.success :=
  ⟨(admin_check_characterization.1 cfgEx kimS adminPwS).mpr
      ⟨by decide, by decide, by decide⟩,
   admin_check_characterization.2.2.2.2.1 cfgUnset kimS adminPwS (some 1) (some 2) none
      rfl (by decide) (by decide) (by decide),
   admin_check_characterization.2.2.2.1 cfgUnset kimS adminPwS rfl (by decide) (by decide),
   (admin_check_characterization.2.2.2.2.2.1 cfgEx (some bearerHdrS)).mpr
      ⟨bearerHdrS, rfl, by decide, by decide, by decide⟩,
   admin_check_characterization.2.2.2.2.2.2.1 cfgUnset bearerHdrS rfl (by decide),
   (admin_check_characterization.2.2.2.2.2.2.2.2 cfgEx kimS [resKim]).mpr
      ⟨by decide, by decide⟩⟩

/-- C5 counterexample: the third variant's bulk-cancel handler takes no
credential and empties a non-empty store unconditionally, and the full
variant's bulk-cancel empties the store for an allow-listed name even
though the admin secret is unconfigured — so bulk cancel does not verify
the admin credential (name plus secret) before acting. -/
theorem bulk_cancel_counterexample :
    deleteAllReservationsV3 [resKim] =
      (BulkOutcome.success, [], [([] : List Reservation)]) ∧
    cfgUnset.adminPassword = none ∧
    deleteAllReservations cfgUnset kimS [resKim] =
      (BulkOutcome.success, [], [([] : List Reservation)]) := by
  decide

/-- C5 (amended): the full variant's bulk cancel checks only that the
supplied adminUsername is allow-listed: when that name check fails nothing
is deleted and no broadcast is sent; when it passes, every record is
deleted regardless of any record's password and an empty list is
broadcast.  The third variant's bulk cancel performs no credential check
and deletes everything unconditionally. -/
theorem bulk_cancel_behavior :
    (∀ (cfg : Config) (u : String) (db : List Reservation),
      (u = emptyS ∨ u ∉ cfg.adminUsernames) →
      deleteAllReservations cfg u db = (BulkOutcome.forbidden, db, [])) ∧
    (∀ (cfg : Config) (u : String) (db : List Reservation),
      u ≠ emptyS → u ∈ cfg.adminUsernames →
      deleteAllReservations cfg u db =
        (BulkOutcome.success, [], [([] : List Reservation)])) ∧
    (∀ db : List Reservation,
      deleteAllReservationsV3 db =
        (BulkOutcome.success, [], [([] : List Reservation)])) := by
  refine ⟨?_, ?_, ?_⟩
  · intro cfg u db h
    unfold deleteAllReservations
    rw [if_pos h]
  · intro cfg u db hu hm
    unfold deleteAllReservations
    rw [if_neg (by simp [not_or, hu, hm])]
  · intro db
    rfl

/-- Witness for bulk_cancel_behavior: a rejected and an accepted bulk
cancel on a one-record store. -/
theorem bulk_cancel_behavior_witness :
    deleteAllReservations cfgEx leeS [resKim] = (BulkOutcome.forbidden, [resKim], []) ∧
    deleteAllReservations cfgEx kimS [resKim] =
      (BulkOutcome.success, [], [([] : List Reservation)]) :=
  ⟨bulk_cancel_behavior.1 cfgEx leeS [resKim] (by decide),
   bulk_cancel_behavior.2.1 cfgEx kimS [resKim] (by decide) (by decide)⟩

/-- C6: an owner-initiated MOVE (CREATE-OR-MOVE hitting an existing
identity) or CANCEL whose submitted password fails the bcrypt comparison
against the stored hash is answered with 401 and leaves the store — in
particular the targeted record — completely unchanged, with no broadcast
emitted. -/
theorem credential_gate_move_cancel :
    (∀ (req : PostRequest) (seatV : Int) (st : AdminSetting) (startT endT now : Int)
       (dbRead dbWrite : List Reservation) (freshId : Nat) (e : Reservation),
      req.honeypot = false → req.seat = some seatV →
      ¬(req.roomNo = emptyS ∨ req.name = emptyS ∨ req.dormitory = emptyS ∨
        req.floor = emptyS ∨ req.password = emptyS) →
      isWeakPassword req.password = false →
      st.reservationStartTime = some startT → st.reservationEndTime = some endT →
      ¬(now < startT ∨ endT < now) →
      conflictTaken (dbRead.find? (placementMatch req.dormitory req.floor seatV))
        (dbRead.find? (identityMatch req.roomNo req.name)) = false →
      dbRead.find? (identityMatch req.roomNo req.name) = some e →
      bcryptCompare req.password e.password = false →
      postReservation req (some st) now dbRead dbWrite freshId =
        (PostOutcome.wrongPassword, dbWrite, []) ∧
      PostOutcome.status PostOutcome.wrongPassword = 401) ∧
    (∀ (rid : Nat) (password : String) (db : List Reservation) (r : Reservation),
      password ≠ emptyS →
      db.find? (fun x => x.id == rid) = some r →
      bcryptCompare password r.password = false →
      deleteReservation rid password db = (CancelOutcome.wrongPassword, db, []) ∧
      CancelOutcome.status CancelOutcome.wrongPassword = 401) := by
  constructor
  · intro req seatV st startT endT now dbRead dbWrite freshId e
      hhp hseat hfields hweak hst hen htime hct heu hcmp
    refine ⟨?_, rfl⟩
    rw [postReservation_gates_pass req seatV st startT endT now dbRead dbWrite freshId
      hhp hseat hfields hweak hst hen htime]
    simp only [postTryBody]
    rw [if_neg (by rw [hct]; simp)]
    simp only [heu]
    rw [if_neg (by rw [hcmp]; simp)]
  · intro rid password db r hpw hfind hcmp
    refine ⟨?_, rfl⟩
    unfold deleteReservation
    rw [if_neg hpw]
    simp only [hfind]
    rw [if_neg (by rw [hcmp]; simp)]

/-- Witness for credential_gate_move_cancel: Kim's record with a wrong
password on move and on cancel. -/
theorem credential_gate_move_cancel_witness :
    postReservation reqKimWrongPw (some settingsOpen) 50 [resKim] [resKim] 9 =
      (PostOutcome.wrongPassword, [resKim], []) ∧
    deleteReservation 1 pw2S [resKim] = (CancelOutcome.wrongPassword, [resKim], []) :=
  ⟨(credential_gate_move_cancel.1 reqKimWrongPw 5 settingsOpen 0 100 50
      [resKim] [resKim] 9 resKim (by decide) (by decide) (by decide) (by decide)
      rfl rfl (by decide) (by decide) (by decide) (by decide)).1,
   (credential_gate_move_cancel.2 1 pw2S [resKim] resKim
      (by decide) (by decide) (by decide)).1⟩

/-- C1: a CREATE-OR-MOVE that passed every advisory pre-write check but
whose store write hits a unique-index conflict in the race window (the
write-time store differs from the probed snapshot) is answered 409 with
the duplicate message — the raw store error (code 11000) is caught and
translated, never surfaced as 500. -/
theorem race_duplicate_to_conflict :
    (∀ (req : PostRequest) (seatV : Int) (st : AdminSetting) (startT endT now : Int)
       (dbRead dbWrite : List Reservation) (freshId : Nat),
      req.honeypot = false → req.seat = some seatV →
      ¬(req.roomNo = emptyS ∨ req.name = emptyS ∨ req.dormitory = emptyS ∨
        req.floor = emptyS ∨ req.password = emptyS) →
      isWeakPassword req.password = false →
      st.reservationStartTime = some startT → st.reservationEndTime = some endT →
      ¬(now < startT ∨ endT < now) →
      conflictTaken (dbRead.find? (placementMatch req.dormitory req.floor seatV))
        (dbRead.find? (identityMatch req.roomNo req.name)) = false →
      dbRead.find? (identityMatch req.roomNo req.name) = none →
      (dbWrite.any fun r => identityMatch req.roomNo req.name r ||
        placementMatch req.dormitory req.floor seatV r) = true →
      postReservation req (some st) now dbRead dbWrite freshId =
        (PostOutcome.duplicateKey, dbWrite, []) ∧
      PostOutcome.status PostOutcome.duplicateKey = 409) ∧
    (∀ (req : PostRequest) (seatV : Int) (st : AdminSetting) (startT endT now : Int)
       (dbRead dbWrite : List Reservation) (freshId : Nat) (e w : Reservation),
      req.honeypot = false → req.seat = some seatV →
      ¬(req.roomNo = emptyS ∨ req.name = emptyS ∨ req.dormitory = emptyS ∨
        req.floor = emptyS ∨ req.password = emptyS) →
      isWeakPassword req.password = false →
      st.reservationStartTime = some startT → st.reservationEndTime = some endT →
      ¬(now < startT ∨ endT < now) →
      conflictTaken (dbRead.find? (placementMatch req.dormitory req.floor seatV))
        (dbRead.find? (identityMatch req.roomNo req.name)) = false →
      dbRead.find? (identityMatch req.roomNo req.name) = some e →
      bcryptCompare req.password e.password = true →
      dbWrite.find? (fun r => r.id == e.id) = some w →
      (dbWrite.any fun r => r.id != e.id &&
        placementMatch req.dormitory req.floor seatV r) = true →
      postReservation req (some st) now dbRead dbWrite freshId =
        (PostOutcome.duplicateKey, dbWrite, []) ∧
      PostOutcome.status PostOutcome.duplicateKey = 409) := by
  constructor
  · intro req seatV st startT endT now dbRead dbWrite freshId
      hhp hseat hfields hweak hst hen htime hct heu hins
    refine ⟨?_, rfl⟩
    rw [postReservation_gates_pass req seatV st startT endT now dbRead dbWrite freshId
      hhp hseat hfields hweak hst hen htime]
    simp only [postTryBody]
    rw [if_neg (by rw [hct]; simp)]
    simp only [heu]
    rw [if_pos hins]
  · intro req seatV st startT endT now dbRead dbWrite freshId e w
      hhp hseat hfields hweak hst hen htime hct heu hcmp hfw hdup
    refine ⟨?_, rfl⟩
    rw [postReservation_gates_pass req seatV st startT endT now dbRead dbWrite freshId
      hhp hseat hfields hweak hst hen htime]
    simp only [postTryBody]
    rw [if_neg (by rw [hct]; simp)]
    simp only [heu]
    rw [if_pos hcmp]
    simp only [hfw]
    rw [if_pos hdup]

/-- Witness for race_duplicate_to_conflict: Kim's create passes the probes
against an empty snapshot while Lee's record has landed at the same seat
by write time, and Kim's move to seat 6 passes the probes while a racing
record occupies seat 6 at write time. -/
theorem race_duplicate_to_conflict_witness :
    postReservation reqKim (some settingsOpen) 50 [] [resLee2] 9 =
      (PostOutcome.duplicateKey, [resLee2], []) ∧
    postReservation reqKimMove (some settingsOpen) 50 [resKim] [resKim, resLee] 9 =
      (PostOutcome.duplicateKey, [resKim, resLee], []) :=
  ⟨(race_duplicate_to_conflict.1 reqKim 5 settingsOpen 0 100 50 [] [resLee2] 9
      (by decide) (by decide) (by decide) (by decide) rfl rfl (by decide)
      (by decide) (by decide) (by decide)).1,
   (race_duplicate_to_conflict.2 reqKimMove 6 settingsOpen 0 100 50 [resKim]
      [resKim, resLee] 9 resKim resKim (by decide) (by decide) (by decide) (by decide)
      rfl rfl (by decide) (by decide) (by decide) (by decide) (by decide) (by decide)).1⟩

theorem placementMatch_eq_true {d f : String} {v : Int} {r : Reservation} :
    placementMatch d f v r = true ↔ r.dormitory = d ∧ r.floor = f ∧ r.seat = v := by
  simp [placementMatch, and_assoc]

theorem identityMatch_eq_true {rn nm : String} {r : Reservation} :
    identityMatch rn nm r = true ↔ r.roomNo = rn ∧ r.name = nm := by
  simp [identityMatch]

theorem find?_eq_of_unique {p : Reservation → Bool} {db : List Reservation} {r : Reservation}
    (huniq : ∀ a ∈ db, ∀ b ∈ db, p a = true → p b = true → a = b)
    (hr : r ∈ db) (hpr : p r = true) : db.find? p = some r := by
  rcases hfind : db.find? p with _ | a
  · rw [List.find?_eq_none] at hfind
    exact absurd hpr (hfind r hr)
  · have ha : a ∈ db := List.mem_of_find?_eq_some hfind
    have hpa : p a = true := List.find?_some hfind
    rw [huniq a ha r hr hpa hpr]

theorem postTryBody_taken_iff (req : PostRequest) (seatV : Int)
    (dbRead dbWrite : List Reservation) (freshId : Nat) :
    (postTryBody req seatV dbRead dbWrite freshId).1 = PostOutcome.placementTaken ↔
      conflictTaken (dbRead.find? (placementMatch req.dormitory req.floor seatV))
        (dbRead.find? (identityMatch req.roomNo req.name)) = true := by
  simp only [postTryBody]
  by_cases hct : conflictTaken (dbRead.find? (placementMatch req.dormitory req.floor seatV))
      (dbRead.find? (identityMatch req.roomNo req.name)) = true
  · rw [if_pos hct]
    simp [hct]
  · rw [if_neg hct]
    rcases heu : dbRead.find? (identityMatch req.roomNo req.name) with _ | e <;>
      rw [heu] at hct <;> simp only [heu]
    · by_cases hins : (dbWrite.any fun r => identityMatch req.roomNo req.name r ||
          placementMatch req.dormitory req.floor seatV r) = true
      · rw [if_pos hins]
        simp [hct]
      · rw [if_neg hins]
        simp [hct]
    · by_cases hcmp : bcryptCompare req.password e.password = true
      · rw [if_pos hcmp]
        rcases hw : dbWrite.find? (fun r => r.id == e.id) with _ | w <;> simp only [hw]
        · simp [hct]
        · by_cases hdup : (dbWrite.any fun r => r.id != e.id &&
              placementMatch req.dormitory req.floor seatV r) = true
          · rw [if_pos hdup]
            simp [hct]
          · rw [if_neg hdup]
            simp [hct]
      · rw [if_neg hcmp]
        simp [hct]

theorem conflictTaken_iff_exists (req : PostRequest) (seatV : Int)
    (dbRead : List Reservation)
    (hpu : placementUnique dbRead) (hiu : identityUnique dbRead) :
    conflictTaken (dbRead.find? (placementMatch req.dormitory req.floor seatV))
      (dbRead.find? (identityMatch req.roomNo req.name)) = true ↔
    ∃ c ∈ dbRead, (c.dormitory = req.dormitory ∧ c.floor = req.floor ∧ c.seat = seatV) ∧
      ∀ e ∈ dbRead, e.roomNo = req.roomNo → e.name = req.name → e.id ≠ c.id := by
  constructor
  · intro h
    rcases hcs : dbRead.find? (placementMatch req.dormitory req.floor seatV) with _ | c
    · rw [hcs] at h
      simp [conflictTaken] at h
    · have hcmem : c ∈ dbRead := List.mem_of_find?_eq_some hcs
      have hcp := placementMatch_eq_true.mp (List.find?_some hcs)
      refine ⟨c, hcmem, hcp, ?_⟩
      intro e he h1 h2
      rcases heu : dbRead.find? (identityMatch req.roomNo req.name) with _ | e0
      · rw [List.find?_eq_none] at heu
        exact absurd (identityMatch_eq_true.mpr ⟨h1, h2⟩) (heu e he)
      · rw [hcs, heu] at h
        simp only [conflictTaken, bne_iff_ne] at h
        have he0 := identityMatch_eq_true.mp (List.find?_some heu)
        have : e = e0 := hiu e he e0 (List.mem_of_find?_eq_some heu)
          (h1.trans he0.1.symm) (h2.trans he0.2.symm)
        rw [this]
        exact h
  · rintro ⟨c, hcmem, hcp, hall⟩
    have hcs : dbRead.find? (placementMatch req.dormitory req.floor seatV) = some c := by
      apply find?_eq_of_unique ?_ hcmem (placementMatch_eq_true.mpr hcp)
      intro a ha b hb hpa hpb
      have ha2 := placementMatch_eq_true.mp hpa
      have hb2 := placementMatch_eq_true.mp hpb
      exact hpu a ha b hb (ha2.1.trans hb2.1.symm) (ha2.2.1.trans hb2.2.1.symm)
        (ha2.2.2.trans hb2.2.2.symm)
    rw [hcs]
    rcases heu : dbRead.find? (identityMatch req.roomNo req.name) with _ | e
    · simp [conflictTaken]
    · have hemem : e ∈ dbRead := List.mem_of_find?_eq_some heu
      have hei := identityMatch_eq_true.mp (List.find?_some heu)
      simp only [conflictTaken, bne_iff_ne]
      exact hall e hemem hei.1 hei.2

/-- C2: with every earlier admission gate passed and the store satisfying
its two uniqueness invariants, CREATE-OR-MOVE answers 409 PlacementTaken
exactly when some reservation occupies the requested placement and that
record is not the requester's own reservation under the identity key
(roomNo, name); and an identity that already owns the requested placement
and re-submits it with the correct password is accepted. -/
theorem placement_tiebreak :
    ∀ (req : PostRequest) (seatV : Int) (st : AdminSetting) (startT endT now : Int)
      (dbRead dbWrite : List Reservation) (freshId : Nat),
      req.honeypot = false → req.seat = some seatV →
      ¬(req.roomNo = emptyS ∨ req.name = emptyS ∨ req.dormitory = emptyS ∨
        req.floor = emptyS ∨ req.password = emptyS) →
      isWeakPassword req.password = false →
      st.reservationStartTime = some startT → st.reservationEndTime = some endT →
      ¬(now < startT ∨ endT < now) →
      placementUnique dbRead → identityUnique dbRead →
      (((postReservation req (some st) now dbRead dbWrite freshId).1 =
          PostOutcome.placementTaken ↔
        ∃ c ∈ dbRead, (c.dormitory = req.dormitory ∧ c.floor = req.floor ∧ c.seat = seatV) ∧
          ∀ e ∈ dbRead, e.roomNo = req.roomNo → e.name = req.name → e.id ≠ c.id) ∧
       (∀ own ∈ dbRead, own.roomNo = req.roomNo → own.name = req.name →
         own.dormitory = req.dormitory → own.floor = req.floor → own.seat = seatV →
         bcryptCompare req.password own.password = true → dbWrite = dbRead →
         (postReservation req (some st) now dbRead dbWrite freshId).1 =
           PostOutcome.success)) := by
  intro req seatV st startT endT now dbRead dbWrite freshId
    hhp hseat hfields hweak hst hen htime hpu hiu
  rw [postReservation_gates_pass req seatV st startT endT now dbRead dbWrite freshId
    hhp hseat hfields hweak hst hen htime]
  constructor
  · rw [postTryBody_taken_iff]
    exact conflictTaken_iff_exists req seatV dbRead hpu hiu
  · intro own hmem h1 h2 h3 h4 h5 hcmp hw
    rw [hw]
    have hcs : dbRead.find? (placementMatch req.dormitory req.floor seatV) = some own := by
      apply find?_eq_of_unique ?_ hmem (placementMatch_eq_true.mpr ⟨h3, h4, h5⟩)
      intro a ha b hb hpa hpb
      have ha2 := placementMatch_eq_true.mp hpa
      have hb2 := placementMatch_eq_true.mp hpb
      exact hpu a ha b hb (ha2.1.trans hb2.1.symm) (ha2.2.1.trans hb2.2.1.symm)
        (ha2.2.2.trans hb2.2.2.symm)
    have heu : dbRead.find? (identityMatch req.roomNo req.name) = some own := by
      apply find?_eq_of_unique ?_ hmem (identityMatch_eq_true.mpr ⟨h1, h2⟩)
      intro a ha b hb hpa hpb
      have ha2 := identityMatch_eq_true.mp hpa
      have hb2 := identityMatch_eq_true.mp hpb
      exact hiu a ha b hb (ha2.1.trans hb2.1.symm) (ha2.2.trans hb2.2.symm)
    simp only [postTryBody, hcs, heu]
    rw [if_neg (by simp [conflictTaken])]
    rw [if_pos hcmp]
    have hfw : dbRead.find? (fun r => r.id == own.id) ≠ none := by
      intro hnone
      rw [List.find?_eq_none] at hnone
      exact hnone own hmem (by simp)
    rcases hfw2 : dbRead.find? (fun r => r.id == own.id) with _ | w
    · exact absurd hfw2 hfw
    · simp only [hfw2]
      have hnodup : ¬((dbRead.any fun r => r.id != own.id &&
          placementMatch req.dormitory req.floor seatV r) = true) := by
        intro hanyp
        rw [List.any_eq_true] at hanyp
        obtain ⟨x, hx, hxp⟩ := hanyp
        rw [Bool.and_eq_true, bne_iff_ne] at hxp
        have hx2 := placementMatch_eq_true.mp hxp.2
        have hxo : x = own := hpu x hx own hmem (hx2.1.trans h3.symm)
          (hx2.2.1.trans h4.symm) (hx2.2.2.trans h5.symm)
        exact hxp.1 (by rw [hxo])
      rw [if_neg hnodup]

/-- Witness for placement_tiebreak: Kim's move onto Lee's seat is rejected
as taken; Kim re-submitting the own seat with the correct password
succeeds. -/
theorem placement_tiebreak_witness :
    (postReservation reqKimMove (some settingsOpen) 50
        [resKim, resLee] [resKim, resLee] 9).1 = PostOutcome.placementTaken ∧
    (postReservation reqKim (some settingsOpen) 50 [resKim] [resKim] 9).1 =
      PostOutcome.success :=
  ⟨((placement_tiebreak reqKimMove 6 settingsOpen 0 100 50
      [resKim, resLee] [resKim, resLee] 9
      (by decide) (by decide) (by decide) (by decide) rfl rfl (by decide)
      (by decide) (by decide)).1).mpr
      ⟨resLee, by decide, by decide, by decide⟩,
   ((placement_tiebreak reqKim 5 settingsOpen 0 100 50 [resKim] [resKim] 9
      (by decide) (by decide) (by decide) (by decide) rfl rfl (by decide)
      (by decide) (by decide)).2) resKim (by decide) (by decide) (by decide)
      (by decide) (by decide) (by decide) (by decide) rfl⟩

theorem post_window_iff (req : PostRequest) (seatV : Int) (settings : Option AdminSetting)
    (now : Int) (dbRead dbWrite : List Reservation) (freshId : Nat)
    (hhp : req.honeypot = false) (hseat : req.seat = some seatV)
    (hfields : ¬(req.roomNo = emptyS ∨ req.name = emptyS ∨ req.dormitory = emptyS ∨
      req.floor = emptyS ∨ req.password = emptyS))
    (hweak : isWeakPassword req.password = false) :
    ((postReservation req settings now dbRead dbWrite freshId).1 =
        PostOutcome.windowNotConfigured ∨
      (postReservation req settings now dbRead dbWrite freshId).1 =
        PostOutcome.windowClosed) ↔ isBookingOpen settings now = false := by
  rcases settings with _ | st
  · unfold postReservation
    simp only [hhp, hseat, hweak, Bool.false_eq_true, if_false, if_neg hfields]
    simp [isBookingOpen]
  · rcases st with ⟨os, oe⟩
    rcases os with _ | startT
    · unfold postReservation
      simp only [hhp, hseat, hweak, Bool.false_eq_true, if_false, if_neg hfields]
      simp [isBookingOpen]
    · rcases oe with _ | endT
      · unfold postReservation
        simp only [hhp, hseat, hweak, Bool.false_eq_true, if_false, if_neg hfields]
        simp [isBookingOpen]
      · by_cases htime : now < startT ∨ endT < now
        · unfold postReservation
          simp only [hhp, hseat, hweak, Bool.false_eq_true, if_false, if_neg hfields,
            if_pos htime]
          have hbo : isBookingOpen (some ⟨some startT, some endT⟩) now = false := by
            simp only [isBookingOpen]
            simp only [Bool.and_eq_false_iff, decide_eq_false_iff_not]
            omega
          rw [hbo]
          simp
        · rw [postReservation_gates_pass req seatV ⟨some startT, some endT⟩ startT endT now
            dbRead dbWrite freshId hhp hseat hfields hweak rfl rfl htime]
          have hbo : isBookingOpen (some ⟨some startT, some endT⟩) now = true := by
            simp only [isBookingOpen]
            simp only [Bool.and_eq_true, decide_eq_true_eq]
            omega
          rw [hbo]
          obtain ⟨o, db2, b2, heq, hcases⟩ := postTryBody_cases req seatV dbRead dbWrite freshId
          rw [heq]
          rcases hcases with h2 | h2 | h2 | h2 | h2 <;> simp [h2]

/-- C3 counterexample: with the settings record absent and a weak numeric
password, the request is rejected 400 WeakCredential, not 403 WindowClosed
— the outcome does depend on the password field even when the window is
unconfigured. -/
theorem window_gate_counterexample :
    (postReservation reqWeakNum none 0 [] [] 1).1 = PostOutcome.weakPassword ∧
    PostOutcome.status (postReservation reqWeakNum none 0 [] [] 1).1 = 400 := by
  decide

/-- C3 (amended): for every CREATE-OR-MOVE request that passes the prior
validation and password-weakness checks, the handler rejects with a 403
window response (settings unconfigured or window closed) exactly when
isBookingOpen is false — i.e. when the settings record is absent, a bound
is null, or now lies outside the inclusive [start, end] interval —
regardless of placement availability or store contents, and it can succeed
only when isBookingOpen is true. -/
theorem window_gate_characterization :
    ∀ (req : PostRequest) (seatV : Int) (settings : Option AdminSetting) (now : Int)
      (dbRead dbWrite : List Reservation) (freshId : Nat),
      req.honeypot = false → req.seat = some seatV →
      ¬(req.roomNo = emptyS ∨ req.name = emptyS ∨ req.dormitory = emptyS ∨
        req.floor = emptyS ∨ req.password = emptyS) →
      isWeakPassword req.password = false →
      ((((postReservation req settings now dbRead dbWrite freshId).1 =
            PostOutcome.windowNotConfigured ∨
         (postReservation req settings now dbRead dbWrite freshId).1 =
            PostOutcome.windowClosed) ↔ isBookingOpen settings now = false) ∧
       ((postReservation req settings now dbRead dbWrite freshId).1 =
            PostOutcome.success → isBookingOpen settings now = true) ∧
       PostOutcome.status PostOutcome.windowNotConfigured = 403 ∧
       PostOutcome.status PostOutcome.windowClosed = 403) := by
  intro req seatV settings now dbRead dbWrite freshId hhp hseat hfields hweak
  have key := post_window_iff req seatV settings now dbRead dbWrite freshId
    hhp hseat hfields hweak
  refine ⟨key, ?_, rfl, rfl⟩
  intro hsucc
  cases hbv : isBookingOpen settings now
  · exfalso
    rcases key.mpr hbv with h | h <;> rw [hsucc] at h <;> cases h
  · rfl

/-- Witness for window_gate_characterization: with settings absent and a
strong password, the request is rejected with a window response. -/
theorem window_gate_characterization_witness :
    (postReservation reqKim none 0 [] [] 1).1 = PostOutcome.windowNotConfigured ∨
    (postReservation reqKim none 0 [] [] 1).1 = PostOutcome.windowClosed :=
  ((window_gate_characterization reqKim 5 none 0 [] [] 1
      (by decide) (by decide) (by decide) (by decide)).1).mpr (by decide)

/-- C7 counterexample: a weak-password request arriving while the window
is closed (now = 30 outside [10, 20]) receives 400 WeakCredential, not 403
WindowClosed — the weakness check is evaluated first. -/
theorem ordering_counterexample :
    isBookingOpen (some settingsNarrow) 30 = false ∧
    isWeakPassword weakRepS = true ∧
    (postReservation reqWeakRep (some settingsNarrow) 30 [] [] 1).1 =
      PostOutcome.weakPassword ∧
    PostOutcome.status PostOutcome.weakPassword = 400 := by
  decide

/-- C7 (amended): in the CREATE-OR-MOVE admission sequence the
password-weakness check is evaluated before the time-window check: a
request past field validation with a weak password is answered 400
WeakCredential whatever the window state, and only requests passing the
weakness check receive the 403 window responses when booking is closed. -/
theorem weakness_before_window :
    (∀ (req : PostRequest) (seatV : Int) (settings : Option AdminSetting) (now : Int)
       (dbRead dbWrite : List Reservation) (freshId : Nat),
      req.honeypot = false → req.seat = some seatV →
      ¬(req.roomNo = emptyS ∨ req.name = emptyS ∨ req.dormitory = emptyS ∨
        req.floor = emptyS ∨ req.password = emptyS) →
      isWeakPassword req.password = true →
      postReservation req settings now dbRead dbWrite freshId =
        (PostOutcome.weakPassword, dbWrite, []) ∧
      PostOutcome.status PostOutcome.weakPassword = 400) ∧
    (∀ (req : PostRequest) (seatV : Int) (settings : Option AdminSetting) (now : Int)
       (dbRead dbWrite : List Reservation) (freshId : Nat),
      req.honeypot = false → req.seat = some seatV →
      ¬(req.roomNo = emptyS ∨ req.name = emptyS ∨ req.dormitory = emptyS ∨
        req.floor = emptyS ∨ req.password = emptyS) →
      isWeakPassword req.password = false →
      isBookingOpen settings now = false →
      ((postReservation req settings now dbRead dbWrite freshId).1 =
          PostOutcome.windowNotConfigured ∨
       (postReservation req settings now dbRead dbWrite freshId).1 =
          PostOutcome.windowClosed)) := by
  constructor
  · intro req seatV settings now dbRead dbWrite freshId hhp hseat hfields hweak
    refine ⟨?_, rfl⟩
    unfold postReservation
    simp only [hhp, hseat, Bool.false_eq_true, if_false, if_neg hfields, if_pos hweak]
  · intro req seatV settings now dbRead dbWrite freshId hhp hseat hfields hweak hclosed
    exact (post_window_iff req seatV settings now dbRead dbWrite freshId
      hhp hseat hfields hweak).mpr hclosed

/-- Witness for weakness_before_window: the weak request with no settings
configured is answered 400; the strong request against a closed window is
answered with a window response. -/
theorem weakness_before_window_witness :
    postReservation reqWeakNum none 5 [] [] 1 = (PostOutcome.weakPassword, [], []) ∧
    ((postReservation reqKim (some settingsNarrow) 30 [] [] 1).1 =
        PostOutcome.windowNotConfigured ∨
     (postReservation reqKim (some settingsNarrow) 30 [] [] 1).1 =
        PostOutcome.windowClosed) :=
  ⟨(weakness_before_window.1 reqWeakNum 5 none 5 [] [] 1
      (by decide) (by decide) (by decide) (by decide)).1,
   weakness_before_window.2 reqKim 5 (some settingsNarrow) 30 [] [] 1
      (by decide) (by decide) (by decide) (by decide) (by decide)⟩

theorem postTryBody_shape (req : PostRequest) (seatV : Int)
    (dbRead dbWrite : List Reservation) (freshId : Nat) :
    ∃ o db b, postTryBody req seatV dbRead dbWrite freshId = (o, db, b) ∧
      (o = PostOutcome.success → b = [db]) := by
  simp only [postTryBody]
  by_cases hct : conflictTaken (dbRead.find? (placementMatch req.dormitory req.floor seatV))
      (dbRead.find? (identityMatch req.roomNo req.name)) = true
  · simp only [if_pos hct]
    exact ⟨_, _, _, rfl, by simp⟩
  · simp only [if_neg hct]
    rcases heu : dbRead.find? (identityMatch req.roomNo req.name) with _ | e <;>
      simp only [heu]
    · by_cases hins : (dbWrite.any fun r => identityMatch req.roomNo req.name r ||
          placementMatch req.dormitory req.floor seatV r) = true
      · simp only [if_pos hins]
        exact ⟨_, _, _, rfl, by simp⟩
      · simp only [if_neg hins]
        exact ⟨_, _, _, rfl, fun _ => rfl⟩
    · by_cases hcmp : bcryptCompare req.password e.password = true
      · simp only [if_pos hcmp]
        rcases hw : dbWrite.find? (fun r => r.id == e.id) with _ | w <;> simp only [hw]
        · exact ⟨_, _, _, rfl, by simp⟩
        · by_cases hdup : (dbWrite.any fun r => r.id != e.id &&
              placementMatch req.dormitory req.floor seatV r) = true
          · simp only [if_pos hdup]
            exact ⟨_, _, _, rfl, by simp⟩
          · simp only [if_neg hdup]
            exact ⟨_, _, _, rfl, fun _ => rfl⟩
      · simp only [if_neg hcmp]
        exact ⟨_, _, _, rfl, by simp⟩

theorem postReservation_shape (req : PostRequest) (settings : Option AdminSetting) (now : Int)
    (dbRead dbWrite : List Reservation) (freshId : Nat) :
    ∃ o db b, postReservation req settings now dbRead dbWrite freshId = (o, db, b) ∧
      (o = PostOutcome.success → b = [db]) := by
  unfold postReservation
  by_cases hhp : req.honeypot = true
  · rw [if_pos hhp]
    exact ⟨_, _, _, rfl, by simp⟩
  · rw [if_neg hhp]
    rcases hseat : req.seat with _ | seatV <;> simp only [hseat]
    · exact ⟨_, _, _, rfl, by simp⟩
    · by_cases hfields : (req.roomNo = emptyS ∨ req.name = emptyS ∨ req.dormitory = emptyS ∨
        req.floor = emptyS ∨ req.password = emptyS)
      · rw [if_pos hfields]
        exact ⟨_, _, _, rfl, by simp⟩
      · rw [if_neg hfields]
        by_cases hweak : isWeakPassword req.password = true
        · rw [if_pos hweak]
          exact ⟨_, _, _, rfl, by simp⟩
        · rw [if_neg hweak]
          rcases settings with _ | st
          · exact ⟨_, _, _, rfl, by simp⟩
          · rcases hos : st.reservationStartTime with _ | startT <;> simp only [hos]
            · exact ⟨_, _, _, rfl, by simp⟩
            · rcases hoe : st.reservationEndTime with _ | endT <;> simp only [hoe]
              · exact ⟨_, _, _, rfl, by simp⟩
              · by_cases htime : now < startT ∨ endT < now
                · rw [if_pos htime]
                  exact ⟨_, _, _, rfl, by simp⟩
                · rw [if_neg htime]
                  exact postTryBody_shape req seatV dbRead dbWrite freshId

/-- C8: after every accepted mutation the reservationsUpdated broadcast
payload is exactly the full reservation list a fresh GET /reservations
against the post-mutation store returns — the complete current list, never
a diff.  (For bulk cancel the handler emits a literal empty list, which
equals the fresh listing of the emptied store.) -/
theorem broadcast_full_list :
    (∀ (req : PostRequest) (settings : Option AdminSetting) (now : Int)
       (dbRead dbWrite : List Reservation) (freshId : Nat),
      (postReservation req settings now dbRead dbWrite freshId).1 = PostOutcome.success →
      (postReservation req settings now dbRead dbWrite freshId).2.2 =
        [getReservations (postReservation req settings now dbRead dbWrite freshId).2.1]) ∧
    (∀ (rid : Nat) (password : String) (db : List Reservation),
      (deleteReservation rid password db).1 = CancelOutcome.success →
      (deleteReservation rid password db).2.2 =
        [getReservations (deleteReservation rid password db).2.1]) ∧
    (∀ (cfg : Config) (u : String) (db : List Reservation),
      (deleteAllReservations cfg u db).1 = BulkOutcome.success →
      (deleteAllReservations cfg u db).2.2 =
        [getReservations (deleteAllReservations cfg u db).2.1]) := by
  refine ⟨?_, ?_, ?_⟩
  · intro req settings now dbRead dbWrite freshId hsucc
    obtain ⟨o, db2, b2, heq, himp⟩ :=
      postReservation_shape req settings now dbRead dbWrite freshId
    rw [heq] at hsucc ⊢
    rw [himp hsucc]
    rfl
  · intro rid password db hsucc
    unfold deleteReservation at hsucc ⊢
    by_cases hpw : password = emptyS
    · rw [if_pos hpw] at hsucc
      simp at hsucc
    · rw [if_neg hpw] at hsucc ⊢
      rcases hfind : db.find? (fun r => r.id == rid) with _ | r <;>
        simp only [hfind] at hsucc ⊢
      · simp at hsucc
      · by_cases hcmp : bcryptCompare password r.password = true
        · rw [if_pos hcmp]
          rfl
        · rw [if_neg hcmp] at hsucc
          simp at hsucc
  · intro cfg u db hsucc
    unfold deleteAllReservations at hsucc ⊢
    by_cases hchk : (u = emptyS ∨ ¬ (u ∈ cfg.adminUsernames))
    · rw [if_pos hchk] at hsucc
      simp at hsucc
    · rw [if_neg hchk]
      rfl

/-- Witness for broadcast_full_list: an accepted create, cancel and bulk
cancel each broadcast the fresh full listing. -/
theorem broadcast_full_list_witness :
    (postReservation reqKim (some settingsOpen) 50 [] [] 1).2.2 =
      [getReservations (postReservation reqKim (some settingsOpen) 50 [] [] 1).2.1] ∧
    (deleteReservation 1 pwS [resKim]).2.2 =
      [getReservations (deleteReservation 1 pwS [resKim]).2.1] ∧
    (deleteAllReservations cfgEx kimS [resKim]).2.2 =
      [getReservations (deleteAllReservations cfgEx kimS [resKim]).2.1] :=
  ⟨broadcast_full_list.1 reqKim (some settingsOpen) 50 [] [] 1 (by decide),
   broadcast_full_list.2.1 1 pwS [resKim] (by decide),
   broadcast_full_list.2.2 cfgEx kimS [resKim] (by decide)⟩

theorem postReservation_final_db (req : PostRequest) (settings : Option AdminSetting)
    (now : Int) (dbRead dbWrite : List Reservation) (freshId : Nat) :
    ∃ db, (postReservation req settings now dbRead dbWrite freshId).2.1 = db ∧
      (db = dbWrite ∨
       (∃ e seatV, dbRead.find? (identityMatch req.roomNo req.name) = some e ∧
         db = dbWrite.map (fun r => if r.id = e.id then
           { r with dormitory := req.dormitory, floor := req.floor, seat := seatV }
           else r)) ∨
       (∃ seatV, dbRead.find? (identityMatch req.roomNo req.name) = none ∧
         db = dbWrite ++
           [{ id := freshId, roomNo := req.roomNo, name := req.name,
              dormitory := req.dormitory, floor := req.floor, seat := seatV,
              password := storedPasswordOf req.password,
              plainPassword := req.password }])) := by
  unfold postReservation
  by_cases hhp : req.honeypot = true
  · rw [if_pos hhp]
    exact ⟨_, rfl, Or.inl rfl⟩
  · rw [if_neg hhp]
    rcases hseat : req.seat with _ | seatV <;> simp only [hseat]
    · exact ⟨_, rfl, Or.inl rfl⟩
    · by_cases hfields : (req.roomNo = emptyS ∨ req.name = emptyS ∨ req.dormitory = emptyS ∨
        req.floor = emptyS ∨ req.password = emptyS)
      · rw [if_pos hfields]
        exact ⟨_, rfl, Or.inl rfl⟩
      · rw [if_neg hfields]
        by_cases hweak : isWeakPassword req.password = true
        · rw [if_pos hweak]
          exact ⟨_, rfl, Or.inl rfl⟩
        · rw [if_neg hweak]
          rcases settings with _ | st
          · exact ⟨_, rfl, Or.inl rfl⟩
          · rcases hos : st.reservationStartTime with _ | startT <;> simp only [hos]
            · exact ⟨_, rfl, Or.inl rfl⟩
            · rcases hoe : st.reservationEndTime with _ | endT <;> simp only [hoe]
              · exact ⟨_, rfl, Or.inl rfl⟩
              · by_cases htime : now < startT ∨ endT < now
                · rw [if_pos htime]
                  exact ⟨_, rfl, Or.inl rfl⟩
                · rw [if_neg htime]
                  simp only [postTryBody]
                  by_cases hct : conflictTaken
                      (dbRead.find? (placementMatch req.dormitory req.floor seatV))
                      (dbRead.find? (identityMatch req.roomNo req.name)) = true
                  · simp only [if_pos hct]
                    exact ⟨_, rfl, Or.inl rfl⟩
                  · simp only [if_neg hct]
                    rcases heu : dbRead.find? (identityMatch req.roomNo req.name) with _ | e <;>
                      simp only [heu]
                    · by_cases hins : (dbWrite.any fun r =>
                          identityMatch req.roomNo req.name r ||
                          placementMatch req.dormitory req.floor seatV r) = true
                      · simp only [if_pos hins]
                        exact ⟨_, rfl, Or.inl rfl⟩
                      · simp only [if_neg hins]
                        exact ⟨_, rfl, Or.inr (Or.inr ⟨seatV, by simp [heu], rfl⟩)⟩
                    · by_cases hcmp : bcryptCompare req.password e.password = true
                      · simp only [if_pos hcmp]
                        rcases hw : dbWrite.find? (fun r => r.id == e.id) with _ | w <;>
                          simp only [hw]
                        · exact ⟨_, rfl, Or.inl rfl⟩
                        · by_cases hdup : (dbWrite.any fun r => r.id != e.id &&
                              placementMatch req.dormitory req.floor seatV r) = true
                          · simp only [if_pos hdup]
                            exact ⟨_, rfl, Or.inl rfl⟩
                          · simp only [if_neg hdup]
                            exact ⟨_, rfl, Or.inr (Or.inl ⟨e, seatV, by simp [heu], rfl⟩)⟩
                      · simp only [if_neg hcmp]
                        exact ⟨_, rfl, Or.inl rfl⟩

theorem post_preserves_stored_shape (req : PostRequest) (settings : Option AdminSetting)
    (now : Int) (dbRead dbWrite : List Reservation) (freshId : Nat)
    (h : ∀ r ∈ dbWrite, r.password = storedPasswordOf r.plainPassword) :
    ∀ r ∈ (postReservation req settings now dbRead dbWrite freshId).2.1,
      r.password = storedPasswordOf r.plainPassword := by
  obtain ⟨db, heqd, hcases⟩ := postReservation_final_db req settings now dbRead dbWrite freshId
  rw [heqd]
  rcases hcases with hdb | ⟨e, seatV, _, hdb⟩ | ⟨seatV, _, hdb⟩
  · rw [hdb]
    exact h
  · rw [hdb]
    intro r hr
    obtain ⟨x, hx, rfl⟩ := List.mem_map.mp hr
    by_cases hid : x.id = e.id
    · rw [if_pos hid]
      exact h x hx
    · rw [if_neg hid]
      exact h x hx
  · rw [hdb]
    intro r hr
    rcases List.mem_append.mp hr with hl | hr2
    · exact h r hl
    · rw [List.mem_singleton] at hr2
      rw [hr2]

theorem delete_preserves_stored_shape (rid : Nat) (password : String)
    (db : List Reservation)
    (h : ∀ r ∈ db, r.password = storedPasswordOf r.plainPassword) :
    ∀ r ∈ (deleteReservation rid password db).2.1,
      r.password = storedPasswordOf r.plainPassword := by
  unfold deleteReservation
  by_cases hpw : password = emptyS
  · rw [if_pos hpw]
    exact h
  · rw [if_neg hpw]
    rcases hfind : db.find? (fun r => r.id == rid) with _ | r <;> simp only [hfind]
    · exact h
    · by_cases hcmp : bcryptCompare password r.password = true
      · rw [if_pos hcmp]
        intro x hx
        exact h x (List.mem_of_mem_filter hx)
      · rw [if_neg hcmp]
        exact h

theorem bulk_preserves_stored_shape (cfg : Config) (u : String) (db : List Reservation)
    (h : ∀ r ∈ db, r.password = storedPasswordOf r.plainPassword) :
    ∀ r ∈ (deleteAllReservations cfg u db).2.1,
      r.password = storedPasswordOf r.plainPassword := by
  unfold deleteAllReservations
  by_cases hchk : (u = emptyS ∨ ¬ (u ∈ cfg.adminUsernames))
  · rw [if_pos hchk]
    exact h
  · rw [if_neg hchk]
    intro r hr
    exact absurd hr (List.not_mem_nil r)

theorem reachable_stored_shape (db : List Reservation) (h : ReachableDb db) :
    ∀ r ∈ db, r.password = storedPasswordOf r.plainPassword := by
  induction h with
  | start =>
      intro r hr
      cases hr
  | createOrMove req settings now db0 freshId _ ih =>
      exact post_preserves_stored_shape req settings now db0 db0 freshId ih
  | cancel rid password db0 _ ih =>
      exact delete_preserves_stored_shape rid password db0 ih
  | bulkCancel cfg u db0 _ ih =>
      exact bulk_preserves_stored_shape cfg u db0 ih

theorem postReservation_move_triples (req : PostRequest) (settings : Option AdminSetting)
    (now : Int) (dbRead dbWrite : List Reservation) (freshId : Nat) (e : Reservation)
    (heu : dbRead.find? (identityMatch req.roomNo req.name) = some e) :
    ((postReservation req settings now dbRead dbWrite freshId).2.1).map
      (fun r => (r.id, r.password, r.plainPassword)) =
    dbWrite.map (fun r => (r.id, r.password, r.plainPassword)) := by
  obtain ⟨db, heqd, hcases⟩ := postReservation_final_db req settings now dbRead dbWrite freshId
  rw [heqd]
  rcases hcases with hdb | ⟨e2, seatV, _, hdb⟩ | ⟨seatV, hnone, _⟩
  · rw [hdb]
  · rw [hdb, List.map_map]
    apply List.map_congr_left
    intro a _
    by_cases hid : a.id = e2.id
    · simp [Function.comp, if_pos hid]
    · simp [Function.comp, if_neg hid]
  · rw [heu] at hnone
    cases hnone

theorem viewPlainPassword_ok (cfg : Config) (u p : String) (rid : Nat)
    (db : List Reservation) (r : Reservation)
    (hu : u ≠ emptyS) (hp : p ≠ emptyS)
    (hsm : adminSecretMatches cfg p = true) (hmem : u ∈ cfg.adminUsernames)
    (hfind : db.find? (fun x => x.id == rid) = some r) :
    viewPlainPassword cfg u p rid db = ViewOutcome.ok r.plainPassword := by
  unfold viewPlainPassword
  rw [if_neg (by simp [hu, hp])]
  rw [if_neg (by simp [hsm])]
  rw [if_neg (by simp [hmem])]
  simp only [hfind]

/-- C10 counterexample: a reachable CREATE with a 50-character password is
accepted, and the pre-save hook skips hashing (length < 50 fails), so the
password field stores the cleartext itself, not the bcrypt hash — the
record holds the cleartext twice. -/
theorem plain_password_counterexample :
    postReservation reqLongPw (some settingsOpen) 50 [] [] 1 =
      (PostOutcome.success, [resLongStored], [[resLongStored]]) ∧
    resLongStored.password = resLongStored.plainPassword ∧
    resLongStored.password ≠ bcryptHash resLongStored.plainPassword := by
  decide

/-- C10 (amended): every reservation created via CREATE-OR-MOVE stores the
submitted password twice — in the password field bcrypt-hashed when it is
shorter than 50 characters and as-is (cleartext) otherwise, and always in
cleartext in plainPassword; in every store reachable by the mutating
handlers, each record's password field is exactly the stored form of its
plainPassword; a MOVE modifies neither password nor plainPassword of any
record; and the admin view-plain-password endpoint returns the stored
cleartext plainPassword of the target record. -/
theorem plain_password_storage :
    (∀ db, ReachableDb db → ∀ r ∈ db, r.password = storedPasswordOf r.plainPassword) ∧
    (∀ (req : PostRequest) (settings : Option AdminSetting) (now : Int)
       (dbRead dbWrite : List Reservation) (freshId : Nat) (e : Reservation),
      dbRead.find? (identityMatch req.roomNo req.name) = some e →
      ((postReservation req settings now dbRead dbWrite freshId).2.1).map
        (fun r => (r.id, r.password, r.plainPassword)) =
      dbWrite.map (fun r => (r.id, r.password, r.plainPassword))) ∧
    (∀ (cfg : Config) (u p : String) (rid : Nat) (db : List Reservation) (r : Reservation),
      u ≠ emptyS → p ≠ emptyS → adminSecretMatches cfg p = true →
      u ∈ cfg.adminUsernames →
      db.find? (fun x => x.id == rid) = some r →
      viewPlainPassword cfg u p rid db = ViewOutcome.ok r.plainPassword) :=
  ⟨reachable_stored_shape, postReservation_move_triples, viewPlainPassword_ok⟩

/-- Witness for plain_password_storage: the store created by Kim's booking
satisfies the stored-shape invariant; the admin endpoint returns Kim's
cleartext password; Kim's move leaves ids and both password fields
untouched. -/
theorem plain_password_storage_witness :
    resKim.password = storedPasswordOf resKim.plainPassword ∧
    viewPlainPassword cfgEx kimS adminPwS 1 [resKim] =
      ViewOutcome.ok resKim.plainPassword ∧
    ((postReservation reqKimMove (some settingsOpen) 50 [resKim] [resKim] 9).2.1).map
      (fun r => (r.id, r.password, r.plainPassword)) =
      [resKim].map (fun r => (r.id, r.password, r.plainPassword)) :=
  ⟨plain_password_storage.1 _
      (ReachableDb.createOrMove reqKim (some settingsOpen) 50 [] 1 ReachableDb.start)
      resKim (by decide),
   plain_password_storage.2.2 cfgEx kimS adminPwS 1 [resKim] resKim
      (by decide) (by decide) (by decide) (by decide) (by decide),
   plain_password_storage.2.1 reqKimMove (some settingsOpen) 50 [resKim] [resKim] 9 resKim
      (by decide)⟩
